import Mathlib

/-!
Verification of `bids_application_templates`.

Shallow embedding of the two scripts of the repository:

* `src/templates/report/html_report_template.py` — the HTML report
  assembler (`build_color_scheme`, `generate_header`, `generate_navigation`,
  `generate_section_placeholder`, `generate_footer`, `generate_html_report`,
  the `DEFAULT_CSS` / `HTML_TEMPLATE` format strings);
* `src/templates/cli/cli_template.py` — `parse_derivatives_arg`.

Modelling conventions:

* Python `dict[str, str]` values are insertion-ordered association lists
  (`Dict` below).  `dinsert` is `d[k] = v` (update-in-place of the first
  binding, else append); `dlookup` is `d.get(k)`; `dictUpdate` is
  `d.update(other)`.
* Python f-strings are embedded as string concatenation; `str.format`
  templates (`DEFAULT_CSS`, `HTML_TEMPLATE`) are embedded as a list of
  `Piece`s (literal text / `{name}` placeholder) interpreted by `fmt`,
  which returns `Except.error k` on the first placeholder key missing
  from the mapping — the shallow image of Python's `KeyError`.
* The two `datetime.now()` calls (metadata-section date, footer year) are
  made explicit as a `Clock` argument; a frozen clock is one fixed `Clock`.
* `pathlib.Path(p)` is kept as the raw string `p`.
* In-place mutation of the caller's `metadata` dict (line 999 of the
  report template) is made explicit: `generate_html_report` returns the
  final state of that mapping next to the rendered HTML.
* Literal text is transcribed character-for-character from the source;
  braces and apostrophes inside string literals are written with the
  escapes \x7b, \x7d, \x27.
-/

set_option maxRecDepth 4000

namespace BidsTemplates

/-- Insertion-ordered string-to-string mapping: the image of a Python
`dict[str, str]`. -/
abbrev Dict := List (String × String)

/-- The observable state of the (frozen) wall clock: the value of
`datetime.now().strftime('%Y-%m-%d %H:%M:%S')` and of `datetime.now().year`
at the single frozen instant. -/
structure Clock where
  dateStr : String
  year : Nat
deriving DecidableEq, Repr

/-- Python `d[k] = v` on an insertion-ordered dict: replace the value of the
first binding of `k`, else append `(k, v)` at the end. -/
def dinsert (k v : String) : Dict → Dict
  | [] => [(k, v)]
  | (k', v') :: rest => if k' = k then (k', v) :: rest else (k', v') :: dinsert k v rest

/-- Python `d.get(k)`. -/
def dlookup (k : String) : Dict → Option String
  | [] => none
  | (k', v) :: rest => if k' = k then some v else dlookup k rest

/-- Python `d.update(other)`: assign every binding of `other`, in order,
into `d`. -/
def dictUpdate (d : Dict) (other : Dict) : Dict :=
  other.foldl (fun acc kv => dinsert kv.1 kv.2 acc) d

theorem dlookup_dinsert_self (k v : String) (d : Dict) :
    dlookup k (dinsert k v d) = some v := by
  induction d with
  | nil => simp [dinsert, dlookup]
  | cons hd tl ih =>
    by_cases h : hd.1 = k
    · simp [dinsert, dlookup, h]
    · simp [dinsert, dlookup, h, ih]

theorem dlookup_dinsert_ne (k k' v : String) (d : Dict) (hne : k' ≠ k) :
    dlookup k (dinsert k' v d) = dlookup k d := by
  induction d with
  | nil => simp [dinsert, dlookup, hne]
  | cons hd tl ih =>
    by_cases h : hd.1 = k'
    · simp [dinsert, dlookup, h, hne]
    · by_cases h2 : hd.1 = k
      · simp [dinsert, dlookup, h, h2, Ne.symm hne]
      · simp [dinsert, dlookup, h, h2, ih]

theorem dlookup_dinsert_isSome (k k' v : String) (d : Dict)
    (h : (dlookup k d).isSome) : (dlookup k (dinsert k' v d)).isSome := by
  by_cases he : k' = k
  · subst he; simp [dlookup_dinsert_self]
  · rwa [dlookup_dinsert_ne k k' v d he]

theorem dlookup_dictUpdate_isSome (k : String) (d other : Dict)
    (h : (dlookup k d).isSome) : (dlookup k (dictUpdate d other)).isSome := by
  induction other generalizing d with
  | nil => exact h
  | cons hd tl ih =>
    exact ih (dinsert hd.1 hd.2 d) (dlookup_dinsert_isSome k hd.1 hd.2 d h)

theorem mem_dinsert_self (k v : String) (d : Dict) : (k, v) ∈ dinsert k v d := by
  induction d with
  | nil => simp [dinsert]
  | cons hd tl ih =>
    obtain ⟨k1, v1⟩ := hd
    by_cases h : k1 = k
    · subst h
      simp [dinsert]
    · simp only [dinsert, if_neg h]
      exact List.mem_cons_of_mem _ ih

theorem dinsert_ne_nil (k v : String) (d : Dict) : dinsert k v d ≠ [] := by
  cases d with
  | nil => simp [dinsert]
  | cons hd tl =>
    by_cases h : hd.1 = k <;> simp [dinsert, h]

/-- Substring containment: `pat` occurs contiguously inside `s` (the image of
Python's `pat in s`). -/
def strContains (s pat : String) : Prop := pat.toList <:+: s.toList

instance (s pat : String) : Decidable (strContains s pat) := by
  unfold strContains
  exact List.decidableInfix _ _

theorem toList_append (a b : String) : (a ++ b).toList = a.toList ++ b.toList := rfl

theorem strContains_refl (s : String) : strContains s s := List.infix_refl _

theorem strContains_appendL (a b pat : String) (h : strContains a pat) :
    strContains (a ++ b) pat := by
  unfold strContains at *
  rw [toList_append]
  exact h.trans (List.prefix_append _ _).isInfix

theorem strContains_appendR (a b pat : String) (h : strContains b pat) :
    strContains (a ++ b) pat := by
  unfold strContains at *
  rw [toList_append]
  exact h.trans (List.suffix_append _ _).isInfix

theorem strContains_trans (a b pat : String) (h1 : strContains a b)
    (h2 : strContains b pat) : strContains a pat := by
  unfold strContains at *
  exact h2.trans h1

/-- Python `"".join(l)`. -/
def joinAll : List String → String
  | [] => ""
  | s :: rest => s ++ joinAll rest

theorem joinAll_contains_mem (l : List String) (x : String) (h : x ∈ l) :
    strContains (joinAll l) x := by
  induction l with
  | nil => cases h
  | cons hd tl ih =>
    cases h with
    | head => exact strContains_appendL _ _ _ (strContains_refl x)
    | tail _ hmem => exact strContains_appendR _ _ _ (ih hmem)

/-- One token of a Python `str.format` template: literal text or a `{name}`
placeholder. -/
inductive Piece where
  | lit (s : String)
  | var (k : String)
deriving DecidableEq, Repr

/-- Interpretation of `template.format(**d)`: substitute each placeholder from
`d`, failing with the key of the first placeholder missing from `d` (the
image of Python's `KeyError`). -/
def fmt : List Piece → Dict → Except String String
  | [], _ => .ok ""
  | .lit s :: rest, d => (fmt rest d).map (fun r => s ++ r)
  | .var k :: rest, d =>
    match dlookup k d with
    | some v => (fmt rest d).map (fun r => v ++ r)
    | none => .error k

/-- The placeholder keys referenced by a template, in order of appearance. -/
def varKeys (pieces : List Piece) : List String :=
  pieces.filterMap fun p => match p with
    | .var k => some k
    | .lit _ => none

theorem fmt_ok_of_allKeys (pieces : List Piece) (d : Dict)
    (h : ∀ k ∈ varKeys pieces, (dlookup k d).isSome) :
    ∃ s, fmt pieces d = .ok s := by
  induction pieces with
  | nil => exact ⟨"", rfl⟩
  | cons hd tl ih =>
    cases hd with
    | lit s =>
      obtain ⟨r, hr⟩ := ih (by intro k hk; exact h k (by simp [varKeys] at hk ⊢; exact hk))
      exact ⟨s ++ r, by simp [fmt, hr, Except.map]⟩
    | var k =>
      have hk : (dlookup k d).isSome := h k (by simp [varKeys])
      obtain ⟨v, hv⟩ := Option.isSome_iff_exists.mp hk
      obtain ⟨r, hr⟩ := ih (by intro k' hk'; exact h k' (by simp [varKeys] at hk' ⊢; exact Or.inr hk'))
      exact ⟨v ++ r, by simp [fmt, hv, hr, Except.map]⟩

theorem fmt_error_missing (pieces : List Piece) (d : Dict) (k : String)
    (h : fmt pieces d = .error k) : Piece.var k ∈ pieces ∧ dlookup k d = none := by
  induction pieces with
  | nil => simp [fmt] at h
  | cons hd tl ih =>
    cases hd with
    | lit s =>
      cases hr : fmt tl d with
      | ok r => rw [fmt, hr] at h; simp [Except.map] at h
      | error e =>
        rw [fmt, hr] at h
        simp [Except.map] at h
        subst h
        obtain ⟨h1, h2⟩ := ih hr
        exact ⟨List.mem_cons_of_mem _ h1, h2⟩
    | var k' =>
      cases hv : dlookup k' d with
      | some v =>
        rw [fmt, hv] at h
        cases hr : fmt tl d with
        | ok r => rw [hr] at h; simp [Except.map] at h
        | error e =>
          rw [hr] at h
          simp [Except.map] at h
          subst h
          obtain ⟨h1, h2⟩ := ih hr
          exact ⟨List.mem_cons_of_mem _ h1, h2⟩
      | none =>
        rw [fmt, hv] at h
        simp at h
        subst h
        exact ⟨List.mem_cons_self _ _, hv⟩

theorem fmt_ok_contains_var (pieces : List Piece) (d : Dict) (s k v : String)
    (hfmt : fmt pieces d = .ok s) (hmem : Piece.var k ∈ pieces)
    (hlook : dlookup k d = some v) : strContains s v := by
  induction pieces generalizing s with
  | nil => cases hmem
  | cons hd tl ih =>
    cases hd with
    | lit t =>
      cases hr : fmt tl d with
      | ok r =>
        rw [fmt, hr] at hfmt
        simp [Except.map] at hfmt
        subst hfmt
        have hmem' : Piece.var k ∈ tl := by
          cases hmem with
          | tail _ hm => exact hm
        exact strContains_appendR _ _ _ (ih r hr hmem')
      | error e => rw [fmt, hr] at hfmt; simp [Except.map] at hfmt
    | var k' =>
      cases hv : dlookup k' d with
      | some v' =>
        rw [fmt, hv] at hfmt
        cases hr : fmt tl d with
        | ok r =>
          rw [hr] at hfmt
          simp [Except.map] at hfmt
          subst hfmt
          by_cases hk : k' = k
          · subst hk
            rw [hv] at hlook
            cases hlook
            exact strContains_appendL _ _ _ (strContains_refl v)
          · have hmem' : Piece.var k ∈ tl := by
              cases hmem with
              | head => exact absurd rfl hk
              | tail _ hm => exact hm
            exact strContains_appendR _ _ _ (ih r hr hmem')
        | error e => rw [hr] at hfmt; simp [Except.map] at hfmt
      | none => rw [fmt, hv] at hfmt; simp at hfmt

/-- The `DEFAULT_CSS` format string of
`src/templates/report/html_report_template.py` (lines 398-684), tokenized
into literal text and `\x7bplaceholder\x7d` pieces; `\x7b\x7b`/`\x7d\x7d`
escapes are unescaped into literal braces as Python `str.format` does. -/
def defaultCssPieces : List Piece := [
  Piece.lit ("\n    * \x7b\n        margin: 0;\n        padding: 0;\n        box-sizing: border-box;\n    \x7d\n\n    body \x7b\n        font-family: "),
  Piece.var ("font_family"),
  Piece.lit (";\n        line-height: 1.6;\n        color: "),
  Piece.var ("text_color"),
  Piece.lit (";\n        background-color: "),
  Piece.var ("bg_color"),
  Piece.lit (";\n    \x7d\n\n    .report-container \x7b\n        max-width: 1200px;\n        margin: 0 auto;\n        padding: 20px;\n    \x7d\n\n    header \x7b\n        background: linear-gradient(135deg, "),
  Piece.var ("header_bg_start"),
  Piece.lit (", "),
  Piece.var ("header_bg_end"),
  Piece.lit (");\n        color: white;\n        padding: 40px 20px;\n        border-radius: 8px;\n        margin-bottom: 30px;\n        box-shadow: 0 2px 10px rgba(0, 0, 0, 0.1);\n    \x7d\n\n    header h1 \x7b\n        font-size: 2.5em;\n        margin-bottom: 10px;\n    \x7d\n\n    header .subtitle \x7b\n        font-size: 1.1em;\n        opacity: 0.95;\n    \x7d\n\n    .metadata \x7b\n        display: grid;\n        grid-template-columns: repeat(auto-fit, minmax(200px, 1fr));\n        gap: 15px;\n        margin-top: 20px;\n        font-size: 0.9em;\n    \x7d\n\n    .metadata-item \x7b\n        background: rgba(0, 0, 0, 0.1);\n        padding: 10px;\n        border-radius: 4px;\n    \x7d\n\n    .metadata-label \x7b\n        font-weight: bold;\n        opacity: 0.9;\n    \x7d\n\n    nav \x7b\n        background: "),
  Piece.var ("nav_bg"),
  Piece.lit (";\n        padding: 0;\n        margin-bottom: 30px;\n        border-radius: 4px;\n        box-shadow: 0 1px 3px rgba(0, 0, 0, 0.1);\n        position: sticky;\n        top: 0;\n        z-index: 100;\n    \x7d\n\n    nav ul \x7b\n        list-style: none;\n        display: flex;\n        flex-wrap: wrap;\n    \x7d\n\n    nav li \x7b\n        flex: 1;\n        min-width: 120px;\n    \x7d\n\n    nav a \x7b\n        display: block;\n        padding: 15px 20px;\n        color: "),
  Piece.var ("nav_link_color"),
  Piece.lit (";\n        text-decoration: none;\n        border-bottom: 3px solid transparent;\n        transition: all 0.3s ease;\n    \x7d\n\n    nav a:hover \x7b\n        border-bottom-color: "),
  Piece.var ("accent_color"),
  Piece.lit (";\n        background: rgba(0, 0, 0, 0.05);\n    \x7d\n\n    .section \x7b\n        margin-bottom: 40px;\n        padding: 20px;\n        background: "),
  Piece.var ("section_bg"),
  Piece.lit (";\n        border-radius: 8px;\n        box-shadow: 0 1px 3px rgba(0, 0, 0, 0.1);\n    \x7d\n\n    .section h2 \x7b\n        color: "),
  Piece.var ("heading_color"),
  Piece.lit (";\n        font-size: 1.8em;\n        margin-bottom: 20px;\n        border-bottom: 2px solid "),
  Piece.var ("accent_color"),
  Piece.lit (";\n        padding-bottom: 10px;\n    \x7d\n\n    .section h3 \x7b\n        color: "),
  Piece.var ("heading_color"),
  Piece.lit (";\n        font-size: 1.3em;\n        margin-top: 20px;\n        margin-bottom: 10px;\n    \x7d\n\n    .metrics-grid \x7b\n        display: grid;\n        grid-template-columns: repeat(auto-fit, minmax(250px, 1fr));\n        gap: 20px;\n        margin: 20px 0;\n    \x7d\n\n    .metric-card \x7b\n        background: "),
  Piece.var ("card_bg"),
  Piece.lit (";\n        border: 1px solid "),
  Piece.var ("border_color"),
  Piece.lit (";\n        border-radius: 8px;\n        padding: 20px;\n        text-align: center;\n        transition: transform 0.2s ease;\n    \x7d\n\n    .metric-card:hover \x7b\n        transform: translateY(-5px);\n        box-shadow: 0 5px 15px rgba(0, 0, 0, 0.15);\n    \x7d\n\n    .metric-value \x7b\n        font-size: 2.2em;\n        font-weight: bold;\n        color: "),
  Piece.var ("accent_color"),
  Piece.lit (";\n        margin: 10px 0;\n    \x7d\n\n    .metric-label \x7b\n        font-size: 0.95em;\n        color: "),
  Piece.var ("muted_color"),
  Piece.lit (";\n        text-transform: uppercase;\n        letter-spacing: 1px;\n    \x7d\n\n    .metric-unit \x7b\n        font-size: 0.8em;\n        color: "),
  Piece.var ("muted_color"),
  Piece.lit (";\n    \x7d\n\n    .visualization \x7b\n        background: "),
  Piece.var ("chart_bg"),
  Piece.lit (";\n        border: 1px solid "),
  Piece.var ("border_color"),
  Piece.lit (";\n        border-radius: 6px;\n        padding: 20px;\n        margin: 20px 0;\n        text-align: center;\n    \x7d\n\n    .visualization img \x7b\n        max-width: 100%;\n        height: auto;\n        border-radius: 4px;\n    \x7d\n\n    table \x7b\n        width: 100%;\n        border-collapse: collapse;\n        margin: 20px 0;\n    \x7d\n\n    thead \x7b\n        background: "),
  Piece.var ("table_header_bg"),
  Piece.lit (";\n        color: white;\n    \x7d\n\n    th \x7b\n        padding: 12px;\n        text-align: left;\n        font-weight: 600;\n    \x7d\n\n    td \x7b\n        padding: 12px;\n        border-bottom: 1px solid "),
  Piece.var ("border_color"),
  Piece.lit (";\n    \x7d\n\n    tbody tr:hover \x7b\n        background: "),
  Piece.var ("table_hover_bg"),
  Piece.lit (";\n    \x7d\n\n    .status-badge \x7b\n        display: inline-block;\n        padding: 5px 12px;\n        border-radius: 20px;\n        font-size: 0.85em;\n        font-weight: bold;\n    \x7d\n\n    .status-success \x7b\n        background: #d4edda;\n        color: #155724;\n    \x7d\n\n    .status-warning \x7b\n        background: #fff3cd;\n        color: #856404;\n    \x7d\n\n    .status-error \x7b\n        background: #f8d7da;\n        color: #721c24;\n    \x7d\n\n    .status-info \x7b\n        background: #d1ecf1;\n        color: #0c5460;\n    \x7d\n\n    .tag \x7b\n        display: inline-block;\n        background: "),
  Piece.var ("tag_bg"),
  Piece.lit (";\n        color: "),
  Piece.var ("tag_color"),
  Piece.lit (";\n        padding: 5px 10px;\n        border-radius: 4px;\n        margin: 5px 5px 5px 0;\n        font-size: 0.85em;\n    \x7d\n\n    footer \x7b\n        background: "),
  Piece.var ("footer_bg"),
  Piece.lit (";\n        color: "),
  Piece.var ("footer_text"),
  Piece.lit (";\n        padding: 30px 20px;\n        text-align: center;\n        border-top: 1px solid "),
  Piece.var ("border_color"),
  Piece.lit (";\n        margin-top: 40px;\n        border-radius: 0 0 8px 8px;\n    \x7d\n\n    footer p \x7b\n        margin: 5px 0;\n        font-size: 0.9em;\n    \x7d\n\n    .footer-links \x7b\n        margin-top: 15px;\n    \x7d\n\n    .footer-links a \x7b\n        color: "),
  Piece.var ("accent_color"),
  Piece.lit (";\n        text-decoration: none;\n        margin: 0 10px;\n    \x7d\n\n    .footer-links a:hover \x7b\n        text-decoration: underline;\n    \x7d\n\n    @media (max-width: 768px) \x7b\n        header h1 \x7b\n            font-size: 1.8em;\n        \x7d\n\n        .metrics-grid \x7b\n            grid-template-columns: 1fr;\n        \x7d\n\n        nav ul \x7b\n            flex-direction: column;\n        \x7d\n\n        nav li \x7b\n            min-width: 100%;\n        \x7d\n\n        .metadata \x7b\n            grid-template-columns: 1fr;\n        \x7d\n    \x7d\n")
]

/-- The "light" entry of the `schemes` dict in `build_color_scheme`. -/
def light_scheme : Dict := [
  ("bg_color", "#ffffff"),
  ("text_color", "#333333"),
  ("header_bg_start", "#667eea"),
  ("header_bg_end", "#764ba2"),
  ("nav_bg", "#f8f9fa"),
  ("nav_link_color", "#333333"),
  ("accent_color", "#667eea"),
  ("section_bg", "#f9f9f9"),
  ("card_bg", "#ffffff"),
  ("heading_color", "#2d3748"),
  ("muted_color", "#718096"),
  ("border_color", "#e2e8f0"),
  ("chart_bg", "#ffffff"),
  ("table_header_bg", "#667eea"),
  ("table_hover_bg", "#f7fafc"),
  ("tag_bg", "#edf2f7"),
  ("tag_color", "#2d3748"),
  ("footer_bg", "#2d3748"),
  ("footer_text", "#ffffff"),
  ("font_family", "\x27Segoe UI\x27, Tahoma, Geneva, Verdana, sans-serif")
]

/-- The "dark" entry of the `schemes` dict in `build_color_scheme`. -/
def dark_scheme : Dict := [
  ("bg_color", "#1a202c"),
  ("text_color", "#e2e8f0"),
  ("header_bg_start", "#5a67d8"),
  ("header_bg_end", "#6b46c1"),
  ("nav_bg", "#2d3748"),
  ("nav_link_color", "#e2e8f0"),
  ("accent_color", "#63b3ed"),
  ("section_bg", "#2d3748"),
  ("card_bg", "#374151"),
  ("heading_color", "#e2e8f0"),
  ("muted_color", "#a0aec0"),
  ("border_color", "#4a5568"),
  ("chart_bg", "#2d3748"),
  ("table_header_bg", "#5a67d8"),
  ("table_hover_bg", "#374151"),
  ("tag_bg", "#4a5568"),
  ("tag_color", "#e2e8f0"),
  ("footer_bg", "#1a202c"),
  ("footer_text", "#a0aec0"),
  ("font_family", "\x27Segoe UI\x27, Tahoma, Geneva, Verdana, sans-serif")
]

/-- The "minimal" entry of the `schemes` dict in `build_color_scheme`. -/
def minimal_scheme : Dict := [
  ("bg_color", "#fafafa"),
  ("text_color", "#444444"),
  ("header_bg_start", "#000000"),
  ("header_bg_end", "#333333"),
  ("nav_bg", "#ffffff"),
  ("nav_link_color", "#444444"),
  ("accent_color", "#000000"),
  ("section_bg", "#ffffff"),
  ("card_bg", "#ffffff"),
  ("heading_color", "#000000"),
  ("muted_color", "#999999"),
  ("border_color", "#dddddd"),
  ("chart_bg", "#ffffff"),
  ("table_header_bg", "#333333"),
  ("table_hover_bg", "#f5f5f5"),
  ("tag_bg", "#f0f0f0"),
  ("tag_color", "#333333"),
  ("footer_bg", "#333333"),
  ("footer_text", "#ffffff"),
  ("font_family", "\x27Georgia\x27, serif")
]

/-- Embedding of `build_color_scheme` (lines 691-761):
`schemes.get(theme, schemes["light"])` — lookup among the three named
schemes with the light scheme as the default. -/
def build_color_scheme (theme : String) : Dict :=
  if theme = "light" then light_scheme
  else if theme = "dark" then dark_scheme
  else if theme = "minimal" then minimal_scheme
  else light_scheme

/-- Embedding of Python `str.title()` (ASCII): an alphabetic character is
uppercased when the previous character is not alphabetic and lowercased
otherwise; other characters are kept. -/
def titleAux : Bool → List Char → List Char
  | _, [] => []
  | prevAlpha, c :: rest =>
    (if c.isAlpha then (if prevAlpha then c.toLower else c.toUpper) else c)
      :: titleAux c.isAlpha rest

/-- Python `s.title()`. -/
def strTitle (s : String) : String := String.mk (titleAux false s.toList)

/-- Embedding of Python `str.lower()` (ASCII): lowercase every character. -/
def strToLower (s : String) : String := String.mk (s.toList.map Char.toLower)

/-- The per-entry metadata fragment of `generate_header` (line 772). -/
def metadataItem (key value : String) : String :=
  "<div class=\"metadata-item\"><span class=\"metadata-label\">" ++ key ++ ":</span> " ++ value ++ "</div>"

/-- Embedding of `generate_header` (lines 764-785).  `if metadata:` and
`if items:` guard the wrapper; `if value:` keeps only entries whose value
is truthy (non-empty string); `if description` guards the subtitle. -/
def generate_header (title : String) (description : Option String)
    (metadata : Dict) : String :=
  let metadata_html :=
    if metadata = [] then ""
    else
      let items := (metadata.filter fun kv => kv.2 != "").map fun kv =>
        metadataItem kv.1 kv.2
      if items = [] then ""
      else "<div class=\"metadata\">" ++ joinAll items ++ "</div>"
  let desc_html :=
    match description with
    | some d => if d = "" then "" else "<p class=\"subtitle\">" ++ d ++ "</p>"
    | none => ""
  "\n    <header>\n        <h1>" ++ title ++ "</h1>\n        " ++ desc_html ++ "\n        " ++ metadata_html ++ "\n    </header>\n    "

/-- One navigation list item of `generate_navigation` (line 790); the
Python loop variable `section` is a Lean keyword, renamed `sect`. -/
def navItem (sect : String) : String :=
  "<li><a href=\"#" ++ sect ++ "\">" ++ strTitle sect ++ "</a></li>"

/-- Embedding of `generate_navigation` (lines 788-797). -/
def generate_navigation (sections : List String) : String :=
  let nav_items := joinAll (sections.map navItem)
  "\n    <nav>\n        <ul>\n            " ++ nav_items ++ "\n        </ul>\n    </nav>\n    "

/-- Embedding of `generate_section_placeholder` (lines 800-938): fixed
placeholder fragment per recognized (lowercased) section id, interpolating
`section_id` (and, for the metadata section, the frozen-clock date); the
fall-through for an unrecognized id is the empty string (line 938). -/
def generate_section_placeholder (clock : Clock) (section_name : String) : String :=
  let section_id := strToLower section_name
  if section_id = "summary" then
    "\n    <section id=\"" ++ section_id ++ "\" class=\"section\">\n        <h2>Summary</h2>\n        <p>This section provides an overview of the analysis results and key findings.</p>\n        <div class=\"metrics-grid\">\n            <div class=\"metric-card\">\n                <div class=\"metric-label\">Status</div>\n                <div class=\"metric-value\"><span class=\"status-badge status-success\">Complete</span></div>\n            </div>\n            <div class=\"metric-card\">\n                <div class=\"metric-label\">Processing Time</div>\n                <div class=\"metric-value\">2<span class=\"metric-unit\">h 15m</span></div>\n            </div>\n            <div class=\"metric-card\">\n                <div class=\"metric-label\">Data Points</div>\n                <div class=\"metric-value\">10,240</div>\n            </div>\n        </div>\n    </section>\n    "
  else if section_id = "metrics" then
    "\n    <section id=\"" ++ section_id ++ "\" class=\"section\">\n        <h2>Analysis Metrics</h2>\n        <p>Quantitative measurements and key performance indicators.</p>\n        <div class=\"metrics-grid\">\n            <div class=\"metric-card\">\n                <div class=\"metric-label\">Metric One</div>\n                <div class=\"metric-value\">0.92</div>\n            </div>\n            <div class=\"metric-card\">\n                <div class=\"metric-label\">Metric Two</div>\n                <div class=\"metric-value\">87.5<span class=\"metric-unit\">%</span></div>\n            </div>\n            <div class=\"metric-card\">\n                <div class=\"metric-label\">Metric Three</div>\n                <div class=\"metric-value\">156<span class=\"metric-unit\">ms</span></div>\n            </div>\n            <div class=\"metric-card\">\n                <div class=\"metric-label\">Metric Four</div>\n                <div class=\"metric-value\">p &lt; 0.001</div>\n            </div>\n        </div>\n    </section>\n    "
  else if section_id = "visualizations" then
    "\n    <section id=\"" ++ section_id ++ "\" class=\"section\">\n        <h2>Visualizations</h2>\n        <p>Graphical representations of analysis results and trends.</p>\n        <div class=\"visualization\">\n            <p style=\"color: #999; font-size: 1.2em; padding: 40px;\">\n                [Chart/Graph/Plot Placeholder]\n            </p>\n        </div>\n        <div class=\"visualization\">\n            <p style=\"color: #999; font-size: 1.2em; padding: 40px;\">\n                [Visualization Placeholder]\n            </p>\n        </div>\n    </section>\n    "
  else if section_id = "quality" then
    "\n    <section id=\"" ++ section_id ++ "\" class=\"section\">\n        <h2>Quality Assessment</h2>\n        <p>Data quality evaluation and validation results.</p>\n        <table>\n            <thead>\n                <tr>\n                    <th>Check</th>\n                    <th>Result</th>\n                    <th>Details</th>\n                </tr>\n            </thead>\n            <tbody>\n                <tr>\n                    <td>Data Completeness</td>\n                    <td><span class=\"status-badge status-success\">Pass</span></td>\n                    <td>100% of expected data present</td>\n                </tr>\n                <tr>\n                    <td>Value Range Validation</td>\n                    <td><span class=\"status-badge status-success\">Pass</span></td>\n                    <td>All values within expected ranges</td>\n                </tr>\n                <tr>\n                    <td>Format Compliance</td>\n                    <td><span class=\"status-badge status-warning\">Warning</span></td>\n                    <td>Minor formatting inconsistencies detected</td>\n                </tr>\n            </tbody>\n        </table>\n    </section>\n    "
  else if section_id = "metadata" then
    "\n    <section id=\"" ++ section_id ++ "\" class=\"section\">\n        <h2>Metadata</h2>\n        <p>Information about the analysis execution and configuration.</p>\n        <table>\n            <thead>\n                <tr>\n                    <th>Parameter</th>\n                    <th>Value</th>\n                </tr>\n            </thead>\n            <tbody>\n                <tr>\n                    <td>Generated Date</td>\n                    <td>" ++ clock.dateStr ++ "</td>\n                </tr>\n                <tr>\n                    <td>Generator Version</td>\n                    <td>1.0.0</td>\n                </tr>\n                <tr>\n                    <td>Input Source</td>\n                    <td>Analysis output directory</td>\n                </tr>\n                <tr>\n                    <td>Configuration</td>\n                    <td>Default template</td>\n                </tr>\n            </tbody>\n        </table>\n    </section>\n    "
  else ""

/-- One tag chip of `generate_footer` (line 945). -/
def tagElement (tag : String) : String :=
  "<span class=\"tag\">" ++ tag ++ "</span>"

/-- Embedding of `generate_footer` (lines 941-963); `if tags:` guards the
tag block; `datetime.now().year` is the frozen clock year. -/
def generate_footer (clock : Clock) (tags : Option (List String)) : String :=
  let tags_html :=
    match tags with
    | some ts =>
      if ts = [] then ""
      else
        let tag_elements := joinAll (ts.map tagElement)
        "\n        <p>\n            <strong>Tags:</strong><br>\n            " ++ tag_elements ++ "\n        </p>\n        "
    | none => ""
  "\n    <footer>\n        " ++ tags_html ++ "\n        <p>&copy; " ++ toString clock.year ++ " Analysis Report. All rights reserved.</p>\n        <div class=\"footer-links\">\n            <a href=\"#\">Documentation</a>\n            <a href=\"#\">Report Issue</a>\n            <a href=\"#\">Contact Support</a>\n        </div>\n    </footer>\n    "

/-- The static `javascript_content` placeholder of `generate_html_report`
(lines 1016-1021). -/
def javascriptContent : String :=
  "\n    document.addEventListener(\x27DOMContentLoaded\x27, function() \x7b\n        console.log(\x27Report loaded successfully\x27);\n        // Add interactive features here\n    \x7d);\n    "

/-- The final `HTML_TEMPLATE.format(...)` call of `generate_html_report`
(lines 372-396 and 1024-1034): every placeholder is supplied by keyword,
so the template is embedded directly as the concatenation of its literal
chunks and the nine arguments, in template order. -/
def assembleHtml (title authorV descV css header nav mainc footer js : String) : String :=
  joinAll [
    "<!DOCTYPE html>\n<html lang=\"en\">\n<head>\n    <meta charset=\"UTF-8\">\n    <meta name=\"viewport\" content=\"width=device-width, initial-scale=1.0\">\n    <meta name=\"author\" content=\"",
    authorV,
    "\">\n    <meta name=\"description\" content=\"",
    descV,
    "\">\n    <title>",
    title,
    "</title>\n    <style>\n        ",
    css,
    "\n    </style>\n</head>\n<body>\n    <div class=\"report-container\">\n        ",
    header,
    "\n        ",
    nav,
    "\n        ",
    mainc,
    "\n        ",
    footer,
    "\n    </div>\n    <script>\n        ",
    js,
    "\n    </script>\n</body>\n</html>\n"
  ]


/-- Embedding of lines 992-993 of `generate_html_report`: the default
section list when the argument is omitted (None). -/
def resolve_sections (sections : Option (List String)) : List String :=
  match sections with
  | none => ["summary", "metrics", "visualizations"]
  | some s => s

/-- Embedding of lines 995-999 of `generate_html_report`: default the
metadata dict to `\x7b\x7d`, then `if author: metadata["Author"] = author`.
When the caller supplied a dict, the result is the post-call state of the
caller's (mutated) dict. -/
def updateMetadata (author : Option String) (metadata : Option Dict) : Dict :=
  let m := match metadata with
    | none => []
    | some md => md
  match author with
  | some a => if a = "" then m else dinsert ("Author") a m
  | none => m

/-- Embedding of lines 1002-1004 of `generate_html_report`: select the
scheme for the theme, then `if custom_colors: colors.update(custom_colors)`
(an empty override dict is falsy and skipped). -/
def merged_colors (theme : String) (custom_colors : Option Dict) : Dict :=
  let colors := build_color_scheme theme
  match custom_colors with
  | some cc => if cc = [] then colors else dictUpdate colors cc
  | none => colors

/-- Embedding of line 1012 of `generate_html_report`: one placeholder
fragment per section identifier, joined in the caller's order. -/
def main_content (clock : Clock) (sections : List String) : String :=
  joinAll (sections.map (generate_section_placeholder clock))

/-- Python `x or dflt` for an optional string: the default when the value
is missing or falsy (empty). -/
def orDefault (o : Option String) (dflt : String) : String :=
  match o with
  | some s => if s = "" then dflt else s
  | none => dflt

/-- Embedding of `generate_html_report` (lines 966-1036).  The first
component is the rendered HTML, or the key of the first missing CSS
placeholder (Python's `KeyError` from `DEFAULT_CSS.format(**colors)`).
The second component is the final state of the metadata mapping — the
caller's dict is mutated in place by line 999 before any rendering, so it
is reported in both the success and the error case. -/
def generate_html_report (title : String) (description : Option String)
    (sections : Option (List String)) (theme : String)
    (author : Option String) (tags : Option (List String))
    (metadata : Option Dict) (custom_colors : Option Dict)
    (clock : Clock) : Except String String × Dict :=
  let secs := resolve_sections sections
  let metadata := updateMetadata author metadata
  let colors := merged_colors theme custom_colors
  let html : Except String String :=
    match fmt defaultCssPieces colors with
    | .error k => .error k
    | .ok css_content =>
      let header_html := generate_header title description metadata
      let navigation_html := generate_navigation secs
      let main_content_html := main_content clock secs
      let footer_html := generate_footer clock tags
      .ok (assembleHtml title (orDefault author ("Analysis Pipeline"))
        (orDefault description ("Generated analysis report")) css_content
        header_html navigation_html main_content_html footer_html
        javascriptContent)
  (html, metadata)

/-- The rendering succeeded and the produced HTML contains `pat` as a
substring. -/
def exceptContains : Except String String → String → Prop
  | Except.ok h, pat => strContains h pat
  | Except.error _, _ => False

/-- Python `"=" in s` for `parse_derivatives_arg`
(`src/templates/cli/cli_template.py`, line 370). -/
def hasEq (s : String) : Bool := s.toList.any fun c => c == '='

/-- Python `s.split("=", 1)` for a string known to contain `=`: the text
before the first `=` and everything after it. -/
def split1 (s : String) : String × String :=
  (String.mk (s.toList.takeWhile fun c => c != '='),
   String.mk ((s.toList.dropWhile fun c => c != '=').tail))

/-- The loop of `parse_derivatives_arg` (lines 368-377): raise on the first
token without `=`, else split at the first `=` and assign into the dict
(`Path(path)` is kept as the raw path string). -/
def parseDerivGo (acc : Dict) : List String → Except String Dict
  | [] => .ok acc
  | arg :: rest =>
    if hasEq arg then
      let np := split1 arg
      parseDerivGo (dinsert np.1 np.2 acc) rest
    else
      .error ("Invalid derivatives argument: " ++ arg
        ++ ". Expected format: name=path (e.g., preprocessed=/path/to/data)")

/-- Embedding of `parse_derivatives_arg` (lines 359-379): an empty (falsy)
input list returns `\x7b\x7d`; otherwise each `name=path` token is split at
the first `=`, a token without `=` raises `ValueError` with a message naming
the token and the expected format. -/
def parse_derivatives_arg (derivatives_list : List String) : Except String Dict :=
  if derivatives_list = [] then .ok []
  else parseDerivGo [] derivatives_list

/-- Converse of `fmt_error_missing`: a successful format means every
referenced placeholder key was present. -/
theorem fmt_ok_implies_allKeys (pieces : List Piece) (d : Dict) (s : String)
    (h : fmt pieces d = .ok s) : ∀ k ∈ varKeys pieces, (dlookup k d).isSome := by
  induction pieces generalizing s with
  | nil => intro k hk; simp [varKeys] at hk
  | cons hd tl ih =>
    cases hd with
    | lit t =>
      cases hr : fmt tl d with
      | ok r =>
        intro k hk
        simp only [varKeys, List.filterMap_cons] at hk
        exact ih r hr k (by simpa [varKeys] using hk)
      | error e => rw [fmt, hr] at h; simp [Except.map] at h
    | var k' =>
      cases hv : dlookup k' d with
      | some v =>
        cases hr : fmt tl d with
        | ok r =>
          intro k hk
          simp only [varKeys, List.filterMap_cons] at hk
          rcases List.mem_cons.mp hk with he | hm
          · subst he; simp [hv]
          · exact ih r hr k (by simpa [varKeys] using hm)
        | error e => rw [fmt, hv, hr] at h; simp [Except.map] at h
      | none => rw [fmt, hv] at h; simp at h

theorem light_scheme_complete :
    ∀ k ∈ varKeys defaultCssPieces, (dlookup k light_scheme).isSome := by decide

theorem dark_scheme_complete :
    ∀ k ∈ varKeys defaultCssPieces, (dlookup k dark_scheme).isSome := by decide

theorem minimal_scheme_complete :
    ∀ k ∈ varKeys defaultCssPieces, (dlookup k minimal_scheme).isSome := by decide

/-- Every scheme returned by `build_color_scheme` (for any theme string)
binds every placeholder key of the CSS template. -/
theorem build_color_scheme_complete (theme : String) :
    ∀ k ∈ varKeys defaultCssPieces, (dlookup k (build_color_scheme theme)).isSome := by
  intro k hk
  unfold build_color_scheme
  by_cases h1 : theme = "light"
  · simp only [h1, if_pos rfl]
    exact light_scheme_complete k hk
  · rw [if_neg h1]
    by_cases h2 : theme = "dark"
    · rw [if_pos h2]
      exact dark_scheme_complete k hk
    · rw [if_neg h2]
      by_cases h3 : theme = "minimal"
      · rw [if_pos h3]
        exact minimal_scheme_complete k hk
      · rw [if_neg h3]
        exact light_scheme_complete k hk

/-- A custom-colors override can only add or replace bindings, so the merged
mapping still binds every placeholder key of the CSS template. -/
theorem merged_colors_complete (theme : String) (custom_colors : Option Dict) :
    ∀ k ∈ varKeys defaultCssPieces,
      (dlookup k (merged_colors theme custom_colors)).isSome := by
  intro k hk
  cases custom_colors with
  | none => simpa [merged_colors] using build_color_scheme_complete theme k hk
  | some cc =>
    by_cases hcc : cc = []
    · simpa [merged_colors, hcc] using build_color_scheme_complete theme k hk
    · simp only [merged_colors, if_neg hcc]
      exact dlookup_dictUpdate_isSome k _ cc (build_color_scheme_complete theme k hk)

/-- Unfolding of the success branch of `generate_html_report`. -/
theorem render_fst (title : String) (description : Option String)
    (sections : Option (List String)) (theme : String) (author : Option String)
    (tags : Option (List String)) (metadata : Option Dict)
    (custom_colors : Option Dict) (clock : Clock) (css : String)
    (hcss : fmt defaultCssPieces (merged_colors theme custom_colors) = .ok css) :
    (generate_html_report title description sections theme author tags metadata
        custom_colors clock).1 =
      .ok (assembleHtml title (orDefault author ("Analysis Pipeline"))
        (orDefault description ("Generated analysis report")) css
        (generate_header title description (updateMetadata author metadata))
        (generate_navigation (resolve_sections sections))
        (main_content clock (resolve_sections sections))
        (generate_footer clock tags) javascriptContent) := by
  simp only [generate_html_report, hcss]

/-- The metadata component of the result is the (possibly mutated) metadata
mapping, whatever the rendering outcome. -/
theorem render_snd (title : String) (description : Option String)
    (sections : Option (List String)) (theme : String) (author : Option String)
    (tags : Option (List String)) (metadata : Option Dict)
    (custom_colors : Option Dict) (clock : Clock) :
    (generate_html_report title description sections theme author tags metadata
        custom_colors clock).2 = updateMetadata author metadata := rfl

/-- Rendering always succeeds: the scheme (whatever the theme) plus any
override binds every CSS placeholder. -/
theorem render_ok (title : String) (description : Option String)
    (sections : Option (List String)) (theme : String) (author : Option String)
    (tags : Option (List String)) (metadata : Option Dict)
    (custom_colors : Option Dict) (clock : Clock) :
    ∃ html, (generate_html_report title description sections theme author tags
        metadata custom_colors clock).1 = .ok html := by
  obtain ⟨css, hcss⟩ := fmt_ok_of_allKeys defaultCssPieces
    (merged_colors theme custom_colors) (merged_colors_complete theme custom_colors)
  exact ⟨_, render_fst title description sections theme author tags metadata
    custom_colors clock css hcss⟩

/-- The rendered HTML contains the value of any placeholder key of the CSS
template, as bound by the merged color mapping. -/
theorem render_contains_css_var (title : String) (description : Option String)
    (sections : Option (List String)) (theme : String) (author : Option String)
    (tags : Option (List String)) (metadata : Option Dict)
    (custom_colors : Option Dict) (clock : Clock) (k v : String)
    (hmem : Piece.var k ∈ defaultCssPieces)
    (hlook : dlookup k (merged_colors theme custom_colors) = some v) :
    exceptContains (generate_html_report title description sections theme author
        tags metadata custom_colors clock).1 v := by
  obtain ⟨css, hcss⟩ := fmt_ok_of_allKeys defaultCssPieces
    (merged_colors theme custom_colors) (merged_colors_complete theme custom_colors)
  rw [render_fst title description sections theme author tags metadata
    custom_colors clock css hcss]
  show strContains (assembleHtml _ _ _ css _ _ _ _ _) v
  have hcsscont : strContains css v :=
    fmt_ok_contains_var defaultCssPieces _ css k v hcss hmem hlook
  refine strContains_trans _ css v ?_ hcsscont
  unfold assembleHtml
  apply joinAll_contains_mem
  simp

theorem takeWhile_append_all (p : Char → Bool) (l₁ l₂ : List Char)
    (h : ∀ c ∈ l₁, p c = true) :
    (l₁ ++ l₂).takeWhile p = l₁ ++ l₂.takeWhile p := by
  induction l₁ with
  | nil => simp
  | cons hd tl ih =>
    have hp := h hd (List.mem_cons_self _ _)
    simp [List.takeWhile_cons, hp, ih (fun c hc => h c (List.mem_cons_of_mem _ hc))]

theorem dropWhile_append_all (p : Char → Bool) (l₁ l₂ : List Char)
    (h : ∀ c ∈ l₁, p c = true) :
    (l₁ ++ l₂).dropWhile p = l₂.dropWhile p := by
  induction l₁ with
  | nil => simp
  | cons hd tl ih =>
    have hp := h hd (List.mem_cons_self _ _)
    simp [List.dropWhile_cons, hp, ih (fun c hc => h c (List.mem_cons_of_mem _ hc))]

theorem hasEq_false_all (s : String) (h : hasEq s = false) :
    ∀ c ∈ s.toList, (c != '=') = true := by
  intro c hc
  unfold hasEq at h
  rw [List.any_eq_false] at h
  simpa using h c hc

theorem mk_toList (s : String) : String.mk s.toList = s := rfl

theorem toList_sepConcat (name rest : String) :
    (name ++ "=" ++ rest).toList = name.toList ++ '=' :: rest.toList := by
  have h : ("=" : String).toList = ['='] := rfl
  rw [toList_append, toList_append, h, List.append_assoc, List.singleton_append]

/-- Splitting `name=rest` at the first `=` recovers `name` and the whole
remainder `rest` (which may itself contain `=`). -/
theorem split1_concat (name rest : String) (h : hasEq name = false) :
    split1 (name ++ "=" ++ rest) = (name, rest) := by
  have hall := hasEq_false_all name h
  unfold split1
  rw [toList_sepConcat, takeWhile_append_all _ _ _ hall,
    dropWhile_append_all _ _ _ hall]
  simp [List.takeWhile_cons, List.dropWhile_cons, mk_toList]

theorem hasEq_concat (name rest : String) : hasEq (name ++ "=" ++ rest) = true := by
  unfold hasEq
  rw [toList_sepConcat, List.any_eq_true]
  exact ⟨'=', by simp, by decide⟩

/-- The parsing loop raises exactly when a remaining token lacks `=`. -/
theorem parseDerivGo_error_iff (l : List String) :
    ∀ acc, (∃ m, parseDerivGo acc l = .error m) ↔ ∃ t ∈ l, hasEq t = false := by
  induction l with
  | nil => intro acc; simp [parseDerivGo]
  | cons hd tl ih =>
    intro acc
    by_cases h : hasEq hd = true
    · simp only [parseDerivGo, if_pos h]
      rw [ih]
      constructor
      · rintro ⟨t, ht, hf⟩
        exact ⟨t, List.mem_cons_of_mem _ ht, hf⟩
      · rintro ⟨t, ht, hf⟩
        rcases List.mem_cons.mp ht with he | hm
        · subst he
          rw [h] at hf
          cases hf
        · exact ⟨t, hm, hf⟩
    · simp only [parseDerivGo, if_neg h]
      constructor
      · intro _
        exact ⟨hd, List.mem_cons_self _ _, by simpa using h⟩
      · intro _
        exact ⟨_, rfl⟩

/-- The raise condition of `parse_derivatives_arg`, at the function level. -/
theorem parse_derivatives_error_iff (l : List String) :
    (∃ m, parse_derivatives_arg l = .error m) ↔ ∃ t ∈ l, hasEq t = false := by
  by_cases hl : l = []
  · subst hl
    simp [parse_derivatives_arg]
  · rw [parse_derivatives_arg, if_neg hl]
    exact parseDerivGo_error_iff l []

/-- Claim C3: `parse_derivatives_arg ["a=/x", "b=/y"]` yields the mapping
`a ↦ /x, b ↦ /y`; `["bad"]` raises a validation error whose message names
the offending token "bad" and the expected `name=path` format; and an error
is raised exactly when some token lacks `=`. -/
theorem claim_C3 :
    parse_derivatives_arg ["a=/x", "b=/y"] = .ok [("a", "/x"), ("b", "/y")]
    ∧ (∃ msg, parse_derivatives_arg ["bad"] = .error msg
        ∧ strContains msg ("bad") ∧ strContains msg ("name=path"))
    ∧ ∀ l, (∃ m, parse_derivatives_arg l = .error m) ↔ ∃ t ∈ l, hasEq t = false :=
  ⟨rfl,
   ⟨"Invalid derivatives argument: bad. Expected format: name=path (e.g., preprocessed=/path/to/data)",
    rfl, by decide, by decide⟩,
   parse_derivatives_error_iff⟩

/-- Claim C3 witness: the raise-iff conjunct applied at the concrete input
`["bad"]`. -/
theorem claim_C3_witness : ∃ m, parse_derivatives_arg ["bad"] = .error m :=
  (claim_C3.2.2 ["bad"]).mpr ⟨"bad", by decide, by decide⟩

/-- Claim C10: `parse_derivatives_arg` splits each token at the first `=`
only — `name=rest` is accepted with key `name` and the whole remainder
`rest` (even when `rest` contains `=`) — and when two tokens share a name
the mapping holds the path of the last occurrence. -/
theorem claim_C10 (name rest p1 p2 : String) (hname : hasEq name = false) :
    parse_derivatives_arg [name ++ "=" ++ rest] = .ok [(name, rest)]
    ∧ parse_derivatives_arg [name ++ "=" ++ p1, name ++ "=" ++ p2]
        = .ok [(name, p2)] := by
  constructor
  · have hne : ([name ++ "=" ++ rest] : List String) ≠ [] := by simp
    rw [parse_derivatives_arg, if_neg hne]
    rw [parseDerivGo, if_pos (hasEq_concat name rest), split1_concat name rest hname]
    rfl
  · have hne : ([name ++ "=" ++ p1, name ++ "=" ++ p2] : List String) ≠ [] := by simp
    rw [parse_derivatives_arg, if_neg hne]
    rw [parseDerivGo, if_pos (hasEq_concat name p1), split1_concat name p1 hname]
    rw [parseDerivGo, if_pos (hasEq_concat name p2), split1_concat name p2 hname]
    simp [parseDerivGo, dinsert]

/-- Claim C10 witness: first-split and last-wins behavior at concrete
inputs. -/
theorem claim_C10_witness :
    parse_derivatives_arg ["a" ++ "=" ++ "b=c"] = .ok [("a", "b=c")]
    ∧ parse_derivatives_arg ["a" ++ "=" ++ "x", "a" ++ "=" ++ "y"]
        = .ok [("a", "y")] :=
  claim_C10 "a" "b=c" "x" "y" (by decide)

theorem c1_core (title : String) (description : Option String)
    (sections : Option (List String)) (author : Option String)
    (tags : Option (List String)) (metadata : Option Dict) (clock : Clock) :
    exceptContains (generate_html_report title description sections ("light")
        author tags metadata (some [("accent_color", "#123456")]) clock).1
      ("#123456")
    ∧ exceptContains (generate_html_report title description sections ("light")
        author tags metadata (some [("accent_color", "#123456")]) clock).1
      ("#667eea") := by
  constructor
  · exact render_contains_css_var title description sections "light" author tags
      metadata (some [("accent_color", "#123456")]) clock "accent_color"
      "#123456" (by decide) (by decide)
  · exact render_contains_css_var title description sections "light" author tags
      metadata (some [("accent_color", "#123456")]) clock "header_bg_start"
      "#667eea" (by decide) (by decide)

/-- Claim C1, amended: with theme "light" and override
`accent_color ↦ #123456` the output contains "#123456" (the merged palette
maps accent_color to it), but it still contains the default accent value
"#667eea", which remains as the light palette's `header_bg_start` (and
`table_header_bg`) value. -/
theorem claim_C1 (title : String) (description : Option String)
    (sections : Option (List String)) (author : Option String)
    (tags : Option (List String)) (metadata : Option Dict) (clock : Clock) :
    exceptContains (generate_html_report title description sections ("light")
        author tags metadata (some [("accent_color", "#123456")]) clock).1
      ("#123456")
    ∧ exceptContains (generate_html_report title description sections ("light")
        author tags metadata (some [("accent_color", "#123456")]) clock).1
      ("#667eea")
    ∧ dlookup ("accent_color")
        (merged_colors ("light") (some [("accent_color", "#123456")]))
      = some ("#123456") :=
  ⟨(c1_core title description sections author tags metadata clock).1,
   (c1_core title description sections author tags metadata clock).2,
   by decide⟩

/-- Claim C1 counterexample: at a concrete input the claimed conjunction
"contains #123456 and does not contain #667eea" is false — the output does
contain "#667eea". -/
theorem claim_C1_counterexample :
    ¬ (exceptContains (generate_html_report ("Analysis Report") none none
          ("light") none none none (some [("accent_color", "#123456")])
          ⟨("2024-01-01 00:00:00"), 2024⟩).1 ("#123456")
       ∧ ¬ exceptContains (generate_html_report ("Analysis Report") none none
          ("light") none none none (some [("accent_color", "#123456")])
          ⟨("2024-01-01 00:00:00"), 2024⟩).1 ("#667eea")) :=
  fun h => h.2
    (c1_core "Analysis Report" none none none none none
      ⟨"2024-01-01 00:00:00", 2024⟩).2

/-- Claim C2, amended: the metadata component returned by the renderer is
exactly `updateMetadata author metadata` — the caller's mapping is unchanged
when no author is supplied, and when a (truthy) author is supplied only the
reserved key "Author" is written; every other key keeps its value. -/
theorem claim_C2 (title : String) (description : Option String)
    (sections : Option (List String)) (theme : String) (author : Option String)
    (tags : Option (List String)) (m : Dict) (custom_colors : Option Dict)
    (clock : Clock) :
    (generate_html_report title description sections theme author tags (some m)
        custom_colors clock).2 = updateMetadata author (some m)
    ∧ (author = none →
        (generate_html_report title description sections theme author tags
            (some m) custom_colors clock).2 = m)
    ∧ ∀ k, k ≠ "Author" →
        dlookup k ((generate_html_report title description sections theme author
            tags (some m) custom_colors clock).2) = dlookup k m := by
  refine ⟨render_snd title description sections theme author tags (some m)
    custom_colors clock, ?_, ?_⟩
  · intro ha
    subst ha
    rfl
  · intro k hk
    rw [render_snd]
    cases author with
    | none => rfl
    | some a =>
      by_cases ha : a = ""
      · simp [updateMetadata, ha]
      · simp only [updateMetadata, if_neg ha]
        exact dlookup_dinsert_ne k "Author" a m (Ne.symm hk)

/-- Claim C2 counterexample: with a supplied author, the caller's metadata
mapping does not hold the same pairs after the call — the reserved key
"Author" has been added. -/
theorem claim_C2_counterexample :
    (generate_html_report ("T") none none ("light") (some ("X")) none
        (some [("k", "v")]) none ⟨("d"), 2024⟩).2 ≠ [("k", "v")] := by
  decide

/-- Claim C2 witness: no author leaves the mapping untouched; with an author,
a key other than "Author" keeps its value. -/
theorem claim_C2_witness :
    (generate_html_report ("T") none none ("light") none none
        (some [("k", "v")]) none ⟨("d"), 2024⟩).2 = [("k", "v")]
    ∧ dlookup ("k") ((generate_html_report ("T") none none ("light")
        (some ("X")) none (some [("k", "v")]) none ⟨("d"), 2024⟩).2)
      = dlookup ("k") [("k", "v")] :=
  ⟨(claim_C2 "T" none none "light" none none [("k", "v")] none
      ⟨"d", 2024⟩).2.1 rfl,
   (claim_C2 "T" none none "light" (some "X") none [("k", "v")] none
      ⟨"d", 2024⟩).2.2 "k" (by decide)⟩

/-- Claim C4: any theme name other than "light", "dark", "minimal" selects
the light palette, and rendering with it completes without error (silent
fallback). -/
theorem claim_C4 (theme : String)
    (h : theme ∉ (["light", "dark", "minimal"] : List String)) :
    build_color_scheme theme = light_scheme
    ∧ ∀ (title : String) (description : Option String)
        (sections : Option (List String)) (author : Option String)
        (tags : Option (List String)) (metadata : Option Dict)
        (custom_colors : Option Dict) (clock : Clock),
        ∃ html, (generate_html_report title description sections theme author
            tags metadata custom_colors clock).1 = .ok html := by
  constructor
  · have h1 : theme ≠ "light" := fun e => h (by rw [e]; decide)
    have h2 : theme ≠ "dark" := fun e => h (by rw [e]; decide)
    have h3 : theme ≠ "minimal" := fun e => h (by rw [e]; decide)
    unfold build_color_scheme
    rw [if_neg h1, if_neg h2, if_neg h3]
  · intro title description sections author tags metadata custom_colors clock
    exact render_ok title description sections theme author tags metadata
      custom_colors clock

/-- Claim C4 witness: the unknown theme "neon" falls back to the light
palette and renders successfully. -/
theorem claim_C4_witness :
    build_color_scheme ("neon") = light_scheme
    ∧ ∃ html, (generate_html_report ("T") none none ("neon") none none none
        none ⟨("d"), 2024⟩).1 = .ok html :=
  ⟨(claim_C4 "neon" (by decide)).1,
   (claim_C4 "neon" (by decide)).2 "T" none none none none none none
     ⟨"d", 2024⟩⟩

/-- Claim C5: the renderer is deterministic — it is a pure function of its
arguments and the frozen clock (the only time dependence of the source, the
two `datetime.now()` calls, is the explicit `clock` argument), so two
invocations on identical inputs yield identical results. -/
theorem claim_C5 (title : String) (description : Option String)
    (sections : Option (List String)) (theme : String) (author : Option String)
    (tags : Option (List String)) (metadata : Option Dict)
    (custom_colors : Option Dict) (clock : Clock) :
    generate_html_report title description sections theme author tags metadata
        custom_colors clock
      = generate_html_report title description sections theme author tags
        metadata custom_colors clock := rfl

/-- Claim C9: after the merge, either every key referenced by the CSS
template is bound (and formatting succeeds), or formatting fails with the
first referenced-but-missing key; and for every built-in theme merged with
any override mapping all referenced keys are bound and the renderer always
returns HTML (the error branch is unreachable). -/
theorem claim_C9 :
    (∀ d : Dict,
        ((∀ k ∈ varKeys defaultCssPieces, (dlookup k d).isSome)
          ∧ ∃ s, fmt defaultCssPieces d = .ok s)
        ∨ (∃ k, Piece.var k ∈ defaultCssPieces ∧ dlookup k d = none
            ∧ fmt defaultCssPieces d = .error k))
    ∧ ∀ theme, theme ∈ (["light", "dark", "minimal"] : List String) →
        ∀ custom_colors : Option Dict,
          (∀ k ∈ varKeys defaultCssPieces,
            (dlookup k (merged_colors theme custom_colors)).isSome)
          ∧ ∀ (title : String) (description : Option String)
              (sections : Option (List String)) (author : Option String)
              (tags : Option (List String)) (metadata : Option Dict)
              (clock : Clock),
              ∃ html, (generate_html_report title description sections theme
                  author tags metadata custom_colors clock).1 = .ok html := by
  constructor
  · intro d
    cases hfmt : fmt defaultCssPieces d with
    | ok s => exact Or.inl ⟨fmt_ok_implies_allKeys _ d s hfmt, s, rfl⟩
    | error k =>
      obtain ⟨hmem, hnone⟩ := fmt_error_missing _ d k hfmt
      exact Or.inr ⟨k, hmem, hnone, rfl⟩
  · intro theme _ custom_colors
    exact ⟨merged_colors_complete theme custom_colors,
      fun title description sections author tags metadata clock =>
        render_ok title description sections theme author tags metadata
          custom_colors clock⟩

/-- Claim C9 witness: the built-in "dark" theme with an override renders
successfully. -/
theorem claim_C9_witness :
    ∃ html, (generate_html_report ("T") none none ("dark") none none none
        (some [("accent_color", "#000001")]) ⟨("d"), 2024⟩).1 = .ok html :=
  (claim_C9.2 "dark" (by decide) (some [("accent_color", "#000001")])).2
    "T" none none none none none ⟨"d", 2024⟩

/-- Claim C6: an omitted section list resolves to exactly
[summary, metrics, visualizations], and for each built-in theme rendering
with only the required title yields HTML containing the title and a
navigation anchor element for each default section. -/
theorem claim_C6 (theme title : String) (clock : Clock)
    (_htheme : theme ∈ (["light", "dark", "minimal"] : List String)) :
    resolve_sections none = ["summary", "metrics", "visualizations"]
    ∧ exceptContains (generate_html_report title none none theme none none none
        none clock).1 title
    ∧ ∀ s ∈ (["summary", "metrics", "visualizations"] : List String),
        exceptContains (generate_html_report title none none theme none none
            none none clock).1 (navItem s) := by
  obtain ⟨css, hcss⟩ := fmt_ok_of_allKeys defaultCssPieces
    (merged_colors theme none) (merged_colors_complete theme none)
  have hfst := render_fst title none none theme none none none none clock css
    hcss
  refine ⟨rfl, ?_, ?_⟩
  · rw [hfst]
    show strContains (assembleHtml _ _ _ _ _ _ _ _ _) title
    unfold assembleHtml
    apply joinAll_contains_mem
    simp
  · intro s hs
    rw [hfst]
    show strContains (assembleHtml _ _ _ _ _ _ _ _ _) (navItem s)
    refine strContains_trans _ (generate_navigation (resolve_sections none)) _
      ?_ ?_
    · unfold assembleHtml
      apply joinAll_contains_mem
      simp
    · simp only [generate_navigation]
      apply strContains_appendL
      apply strContains_appendR
      apply joinAll_contains_mem
      exact List.mem_map_of_mem navItem hs

/-- Claim C6 witness: the "minimal" theme at a concrete title and clock. -/
theorem claim_C6_witness :
    resolve_sections none = ["summary", "metrics", "visualizations"]
    ∧ exceptContains (generate_html_report ("My Report") none none ("minimal")
        none none none none ⟨("d"), 2024⟩).1 ("My Report")
    ∧ exceptContains (generate_html_report ("My Report") none none ("minimal")
        none none none none ⟨("d"), 2024⟩).1 (navItem ("summary")) :=
  ⟨(claim_C6 "minimal" "My Report" ⟨"d", 2024⟩ (by decide)).1,
   (claim_C6 "minimal" "My Report" ⟨"d", 2024⟩ (by decide)).2.1,
   (claim_C6 "minimal" "My Report" ⟨"d", 2024⟩ (by decide)).2.2 "summary"
     (by decide)⟩

/-- Claim C7: a supplied (truthy) author is written into the metadata
mapping under the reserved key "Author", silently overwriting a pre-existing
"Author" entry, and the rendered header displays the author argument (its
metadata item appears in the output), not the caller's original value. -/
theorem claim_C7 (title : String) (description : Option String)
    (sections : Option (List String)) (theme : String)
    (tags : Option (List String)) (custom_colors : Option Dict) (clock : Clock)
    (m : Dict) (a v0 : String) (ha : a ≠ "")
    (_hv : dlookup ("Author") m = some v0) :
    dlookup ("Author") ((generate_html_report title description sections theme
        (some a) tags (some m) custom_colors clock).2) = some a
    ∧ (a ≠ v0 →
        dlookup ("Author") ((generate_html_report title description sections
            theme (some a) tags (some m) custom_colors clock).2) ≠ some v0)
    ∧ exceptContains (generate_html_report title description sections theme
        (some a) tags (some m) custom_colors clock).1
        (metadataItem ("Author") a) := by
  have hmeta : updateMetadata (some a) (some m) = dinsert ("Author") a m := by
    simp [updateMetadata, ha]
  refine ⟨?_, ?_, ?_⟩
  · rw [render_snd, hmeta]
    exact dlookup_dinsert_self _ _ _
  · intro hne
    rw [render_snd, hmeta, dlookup_dinsert_self]
    intro hc
    exact hne (Option.some.inj hc)
  · obtain ⟨css, hcss⟩ := fmt_ok_of_allKeys defaultCssPieces
      (merged_colors theme custom_colors)
      (merged_colors_complete theme custom_colors)
    rw [render_fst title description sections theme (some a) tags (some m)
      custom_colors clock css hcss]
    show strContains (assembleHtml _ _ _ _ _ _ _ _ _) (metadataItem ("Author") a)
    refine strContains_trans _
      (generate_header title description (updateMetadata (some a) (some m))) _
      ?_ ?_
    · unfold assembleHtml
      apply joinAll_contains_mem
      simp
    · rw [hmeta]
      have hmem : ("Author", a) ∈ dinsert ("Author") a m := mem_dinsert_self _ _ _
      have hfil : ("Author", a)
          ∈ (dinsert ("Author") a m).filter (fun kv => kv.2 != "") :=
        List.mem_filter.mpr ⟨hmem, by simpa using ha⟩
      have hitem : metadataItem ("Author") a
          ∈ ((dinsert ("Author") a m).filter (fun kv => kv.2 != "")).map
              (fun kv => metadataItem kv.1 kv.2) :=
        List.mem_map.mpr ⟨("Author", a), hfil, rfl⟩
      have hne_md : dinsert ("Author") a m ≠ [] := dinsert_ne_nil _ _ _
      have hne_items : ((dinsert ("Author") a m).filter
            (fun kv => kv.2 != "")).map (fun kv => metadataItem kv.1 kv.2)
          ≠ [] := List.ne_nil_of_mem hitem
      simp only [generate_header, if_neg hne_md, if_neg hne_items]
      apply strContains_appendL
      apply strContains_appendR
      apply strContains_appendL
      apply strContains_appendR
      exact joinAll_contains_mem _ _ hitem

/-- Claim C7 witness: overwriting a pre-existing "Author" entry at concrete
inputs. -/
theorem claim_C7_witness :
    dlookup ("Author") ((generate_html_report ("T") none none ("light")
        (some ("New")) none (some [("Author", "Old")]) none
        ⟨("d"), 2024⟩).2) = some ("New")
    ∧ dlookup ("Author") ((generate_html_report ("T") none none ("light")
        (some ("New")) none (some [("Author", "Old")]) none
        ⟨("d"), 2024⟩).2) ≠ some ("Old")
    ∧ exceptContains (generate_html_report ("T") none none ("light")
        (some ("New")) none (some [("Author", "Old")]) none
        ⟨("d"), 2024⟩).1 (metadataItem ("Author") ("New")) :=
  ⟨(claim_C7 "T" none none "light" none none ⟨"d", 2024⟩ [("Author", "Old")]
      "New" "Old" (by decide) (by decide)).1,
   (claim_C7 "T" none none "light" none none ⟨"d", 2024⟩ [("Author", "Old")]
      "New" "Old" (by decide) (by decide)).2.1 (by decide),
   (claim_C7 "T" none none "light" none none ⟨"d", 2024⟩ [("Author", "Old")]
      "New" "Old" (by decide) (by decide)).2.2⟩

/-- Claim C8, amended: the main content is the per-identifier placeholder
fragments concatenated in the caller's order (the function is total, so no
error is ever raised), and every identifier whose lowercased form is outside
the recognized set renders to the empty fragment. -/
theorem claim_C8 (clock : Clock) (s : String)
    (hs : strToLower s ∉ (["summary", "metrics", "visualizations", "quality",
        "metadata"] : List String)) :
    generate_section_placeholder clock s = ""
    ∧ (∀ hd tl, main_content clock (hd :: tl)
        = generate_section_placeholder clock hd ++ main_content clock tl)
    ∧ main_content clock [] = "" := by
  refine ⟨?_, fun hd tl => rfl, rfl⟩
  have h1 : strToLower s ≠ "summary" := fun e => hs (by rw [e]; decide)
  have h2 : strToLower s ≠ "metrics" := fun e => hs (by rw [e]; decide)
  have h3 : strToLower s ≠ "visualizations" := fun e => hs (by rw [e]; decide)
  have h4 : strToLower s ≠ "quality" := fun e => hs (by rw [e]; decide)
  have h5 : strToLower s ≠ "metadata" := fun e => hs (by rw [e]; decide)
  simp [generate_section_placeholder, h1, h2, h3, h4, h5]

/-- Claim C8 counterexample: the identifier "Summary" is outside the
recognized set, yet its emitted fragment is not empty (the membership test
lowercases the identifier first). -/
theorem claim_C8_counterexample :
    ("Summary" ∉ (["summary", "metrics", "visualizations", "quality",
        "metadata"] : List String))
    ∧ generate_section_placeholder ⟨("d"), 2024⟩ ("Summary") ≠ "" := by
  constructor
  · decide
  · decide

/-- Claim C8 witness: a concrete unrecognized identifier renders to the
empty fragment. -/
theorem claim_C8_witness :
    generate_section_placeholder ⟨("d"), 2024⟩ ("other") = ""
    ∧ main_content ⟨("d"), 2024⟩ [] = "" :=
  ⟨(claim_C8 ⟨"d", 2024⟩ "other" (by decide)).1,
   (claim_C8 ⟨"d", 2024⟩ "other" (by decide)).2.2⟩

end BidsTemplates
